import Mathlib

/-!
Shallow embedding of the brain_car signal-to-command pipeline:
the command vocabulary (command_map.py), the signal converter
(converter.py) and the command generator (generator.py), together with
theorems settling the specification claims about them.

Python floats are modelled as rationals; Python `int()` truncation is
`pyInt` (truncation toward zero); Python `None` is `Option.none`;
Python string truthiness is the test against the empty string.
-/

namespace BrainCar

/-! ## Configuration constants (config/car_control_config.py) -/

def BASE_SPEED : Int := 500

def MAX_SPEED : Int := 800

def MEDITATION_THRESHOLD : ℚ := 95

def MIN_DIRECTION : Int := 500

def MAX_DIRECTION : Int := 2500

def CENTER_DIRECTION : Int := 1500

def MAX_ATTENTION_VALUE : ℚ := 100

def MAX_MEDITATION_VALUE : ℚ := 100

def DIRECTION_RANGE_PER_SIDE : ℚ := 400

def STEERING_GAIN : ℚ := 2

/-- Python `int()` applied to a rational: truncation toward zero. -/
def pyInt (q : ℚ) : Int := if q < 0 then -⌊-q⌋ else ⌊q⌋

/-! ## Command vocabulary (command_map.py) -/

/-- The COMMAND_MAP dictionary, as an association list in source order. -/
def COMMAND_MAP : List (String × String) :=
  [("forward", "<BUPD>"),
   ("backward", "<BDND>"),
   ("left", "<BLTD>"),
   ("right", "<BRTD>"),
   ("speed_up", "BUAD"),
   ("speed_down", "BUMD"),
   ("stop_forward", "<BUPU>"),
   ("stop_backward", "<BDNU>"),
   ("stop_left", "<BLTU>"),
   ("stop_right", "<BRTU>"),
   ("stop_all", "BSTD"),
   ("speed", "<SPD-")]

/-- COMMAND_MAP.get: dictionary lookup returning None on a missing key. -/
def get_command (command_name : String) : Option String :=
  (COMMAND_MAP.lookup command_name)

def get_forward_command : Option String := get_command "forward"

def get_backward_command : Option String := get_command "backward"

def get_left_command : Option String := get_command "left"

def get_right_command : Option String := get_command "right"

def get_stop_all_command : Option String := get_command "stop_all"

/-- Validity-range entry of COMMAND_PARAMS for a parameterized command. -/
structure ParamInfo where
  has_parameter : Bool
  min_value : Int
  max_value : Int

/-- COMMAND_PARAMS for the speed command (range 500..1000). -/
def speedParams : ParamInfo := { has_parameter := true, min_value := 500, max_value := 1000 }

/-- COMMAND_PARAMS for the steering command (range 500..2500). -/
def steeringParams : ParamInfo := { has_parameter := true, min_value := 500, max_value := 2500 }

/-- get_speed_command: returns the templated speed command when the value is
in the configured range, and None otherwise. -/
def get_speed_command (speed : Int) : Option String :=
  let speed_info := speedParams
  if speed_info.has_parameter then
    if speed_info.min_value ≤ speed ∧ speed ≤ speed_info.max_value then
      some ("<SPD-" ++ toString speed ++ ">")
    else
      none
  else
    none

/-- get_steering_command: clamps an out-of-range angle to [500, 2500] (with a
warning in the source) and always returns the templated steering command. -/
def get_steering_command (angle : Int) : String :=
  let angle := if angle < 500 ∨ angle > 2500 then max 500 (min 2500 angle) else angle
  "<SUP-" ++ toString angle ++ ">"

/-! ## Command generator (generator.py) -/

/-- Mutable state of CommandGenerator. -/
structure GeneratorState where
  current_speed : Int
  last_is_forward : Option Bool
  previous_angle : Option Int
  deriving Repr, DecidableEq

/-- CommandGenerator.__init__. -/
def initGeneratorState : GeneratorState :=
  { current_speed := BASE_SPEED, last_is_forward := none, previous_angle := none }

/-- CommandGenerator.generate_speed_commands: produces the stop command on a
zero target, otherwise a speed command when the target is in range and
differs from the current speed; the current speed is updated only when a
command was generated. -/
def generate_speed_commands (st : GeneratorState) (target_speed : Int) :
    List String × GeneratorState :=
  let speed_commands : List String :=
    if target_speed = 0 then
      match get_stop_all_command with
      | some stop_command => if stop_command ≠ "" then [stop_command] else []
      | none => []
    else
      if 500 ≤ target_speed ∧ target_speed ≤ 1000 then
        if target_speed ≠ st.current_speed then
          match get_speed_command target_speed with
          | some speed_command => if speed_command ≠ "" then [speed_command] else []
          | none => []
        else []
      else []
  if speed_commands ≠ [] then
    (speed_commands, { st with current_speed := target_speed })
  else
    (speed_commands, st)

/-- CommandGenerator._get_direction_command. -/
def get_direction_command (direction : String) : Option String :=
  if direction = "forward" then get_forward_command
  else if direction = "backward" then get_backward_command
  else if direction = "left" then get_left_command
  else if direction = "right" then get_right_command
  else none

/-- CommandGenerator.generate_movement_command: looks up the forward or
backward token and records the facing when the lookup is truthy. -/
def generate_movement_command (st : GeneratorState) (is_forward : Bool) :
    String × GeneratorState :=
  let direction := if is_forward then "forward" else "backward"
  match get_direction_command direction with
  | some movement_command =>
      if movement_command ≠ "" then
        (movement_command, { st with last_is_forward := some is_forward })
      else
        ("", st)
  | none => ("", st)

/-- CommandGenerator.generate_direction_command: returns the empty string when
the angle equals the stored previous angle, otherwise emits the steering
command and stores the angle.  The source also guards against a None from
get_steering_command, but that function always returns a string. -/
def generate_direction_command (st : GeneratorState) (angle : Int) :
    String × GeneratorState :=
  if st.previous_angle ≠ none ∧ st.previous_angle = some angle then
    ("", st)
  else
    let direction_command := get_steering_command angle
    (direction_command, { st with previous_angle := some angle })

/-- Python str.strip() with no argument: remove leading and trailing
whitespace. -/
def pyStrip (s : String) : String :=
  ⟨((s.data.dropWhile Char.isWhitespace).reverse.dropWhile Char.isWhitespace).reverse⟩

/-- A control triple as produced by the converter.  The source passes it as a
dict and returns [] when one of the three required keys is missing; the
structure models the complete-triple case the claims are about. -/
structure CarControl where
  speed : Int
  direction : Int
  is_forward : Bool
  deriving Repr, DecidableEq

/-- CommandGenerator.generate_commands_from_car_control: speed commands first,
then (only when target speed is nonzero) a facing command when the facing is
unset or changed, then a steering command, in that order. -/
def generate_commands_from_car_control (st : GeneratorState) (car_control_data : CarControl) :
    List String × GeneratorState :=
  let target_speed := car_control_data.speed
  let target_direction := car_control_data.direction
  let is_forward := car_control_data.is_forward
  match generate_speed_commands st target_speed with
  | (speed_commands, st1) =>
    if target_speed ≠ 0 then
      let angle := target_direction
      let movement_step : List String × GeneratorState :=
        match st1.last_is_forward with
        | some last_is_forward =>
          if last_is_forward ≠ is_forward then
            match generate_movement_command st1 is_forward with
            | (movement_command, st2) =>
              if movement_command ≠ "" ∧ pyStrip movement_command ≠ "" then
                ([movement_command], st2)
              else ([], st2)
          else ([], st1)
        | none =>
          match generate_movement_command st1 is_forward with
          | (movement_command, st2) =>
            if movement_command ≠ "" ∧ pyStrip movement_command ≠ "" then
              ([movement_command], st2)
            else ([], st2)
      match generate_direction_command movement_step.2 angle with
      | (steering_command, st3) =>
        let steering_commands :=
          if steering_command ≠ "" ∧ pyStrip steering_command ≠ "" then [steering_command] else []
        (speed_commands ++ movement_step.1 ++ steering_commands, st3)
    else
      (speed_commands, st1)

/-! ## Signal converter (converter.py) -/

/-- The car_status dictionary kept by BrainDataConverter. -/
structure CarStatus where
  direction : Int
  speed : Int
  is_forward : Bool
  deriving Repr, DecidableEq

/-- Mutable state of BrainDataConverter.  _previous_gyro_y and
_last_direction_state are initialised by the source but never read by the
conversion methods. -/
structure ConverterState where
  previous_direction : Int
  previous_gyro_y : Option ℚ
  last_direction_state : Bool
  car_status : CarStatus
  deriving Repr, DecidableEq

/-- BrainDataConverter.__init__. -/
def initConverterState : ConverterState :=
  { previous_direction := CENTER_DIRECTION,
    previous_gyro_y := none,
    last_direction_state := true,
    car_status :=
      { direction := CENTER_DIRECTION, speed := BASE_SPEED, is_forward := true } }

/-- BrainDataConverter.calculate_speed: clamps the inputs, forces BASE_SPEED
above the meditation threshold, otherwise maps attention linearly onto
[BASE_SPEED, MAX_SPEED], truncating to an integer and clamping. -/
def calculate_speed (st : ConverterState) (attention meditation : ℚ) :
    Int × ConverterState :=
  let attention := max 0 (min attention MAX_ATTENTION_VALUE)
  let meditation := max 0 (min meditation MAX_MEDITATION_VALUE)
  let speed : Int :=
    if meditation > MEDITATION_THRESHOLD then
      BASE_SPEED
    else
      let speed_range : ℚ := (MAX_SPEED : ℚ) - (BASE_SPEED : ℚ)
      let mapped_speed : ℚ := (BASE_SPEED : ℚ) + (attention / MAX_ATTENTION_VALUE) * speed_range
      max BASE_SPEED (min (pyInt mapped_speed) MAX_SPEED)
  (speed, { st with car_status := { st.car_status with speed := speed } })

/-- BrainDataConverter.calculate_forward_direction: a missing value (Python
None) yields backward without touching the state; otherwise the facing is
gyro_y < 10 and is recorded in car_status. -/
def calculate_forward_direction (st : ConverterState) (gyro_y : Option ℚ) :
    Bool × ConverterState :=
  match gyro_y with
  | none => (false, st)
  | some y =>
    let current_direction : Bool := decide (y < 10)
    (current_direction,
     { st with car_status := { st.car_status with is_forward := current_direction } })

/-- The clamped, mapped and truncated steering direction computed by
BrainDataConverter.calculate_direction before its hysteresis test
(converter.py lines 134-163). -/
def direction_raw (gyro_z : ℚ) : Int :=
  let gyro_z := max (-90) (min gyro_z 90)
  let direction : ℚ :=
    if gyro_z > 0 then
      let left_ratio := (gyro_z / 90) * STEERING_GAIN
      (CENTER_DIRECTION : ℚ) - left_ratio * DIRECTION_RANGE_PER_SIDE
    else if gyro_z < 0 then
      let normalized_z := if gyro_z < -75 then (-75 : ℚ) else gyro_z
      let right_ratio := ((normalized_z + 75) / 75) * STEERING_GAIN
      (CENTER_DIRECTION : ℚ) + right_ratio * DIRECTION_RANGE_PER_SIDE
    else
      (CENTER_DIRECTION : ℚ)
  max MIN_DIRECTION (min (pyInt direction) MAX_DIRECTION)

/-- BrainDataConverter.calculate_direction: computes direction_raw, then the
hysteresis step; `2000 * 0.01` is exactly 20.0 in the source's float
arithmetic, so the rational threshold is exact. -/
def calculate_direction (st : ConverterState) (gyro_z : ℚ) :
    Int × ConverterState :=
  let direction := direction_raw gyro_z
  let total_range : Int := MAX_DIRECTION - MIN_DIRECTION
  let change_threshold : ℚ := (total_range : ℚ) * (1 / 100)
  if |(direction : ℚ) - (st.previous_direction : ℚ)| < change_threshold then
    (st.previous_direction, st)
  else
    (direction,
     { st with previous_direction := direction,
               car_status := { st.car_status with direction := direction } })

/-- The gyro dictionary of a sample.  The outer Option is key presence
(none = key absent, so that dict.get applies its default); the inner Option
is the stored value (none = the key holds Python None). -/
structure GyroData where
  y : Option (Option ℚ)
  z : Option (Option ℚ)
  deriving Repr, DecidableEq

/-- An essential_data sample.  For the three required top-level keys a missing
key and a key holding Python None both make the source return None, so a
single Option models both. -/
structure EssentialData where
  attention : Option ℚ
  meditation : Option ℚ
  gyro : Option GyroData
  deriving Repr, DecidableEq

/-- BrainDataConverter.convert_essential_data: validates the sample, extracts
gyro.y and gyro.z with default 0 for a missing key, and runs the three
calculations in order (speed, direction, facing).  When the gyro.z key holds
Python None the source raises a TypeError inside calculate_direction, caught
by the surrounding try/except and turned into a None result after the speed
state was already updated. -/
def convert_essential_data (st : ConverterState) (essential_data : EssentialData) :
    Option CarControl × ConverterState :=
  match essential_data.attention, essential_data.meditation, essential_data.gyro with
  | some attention, some meditation, some gyro =>
    let gyro_y : Option ℚ := gyro.y.getD (some 0)
    let gyro_z : Option ℚ := gyro.z.getD (some 0)
    match calculate_speed st attention meditation with
    | (speed, st1) =>
      match gyro_z with
      | none => (none, st1)
      | some z =>
        match calculate_direction st1 z with
        | (direction, st2) =>
          match calculate_forward_direction st2 gyro_y with
          | (is_forward, st3) =>
            (some { speed := speed, direction := direction, is_forward := is_forward }, st3)
  | _, _, _ => (none, st)

/-! ## Command classification predicates -/

/-- A wire string of the speed step: the stop token or a speed template. -/
def is_speed_command (s : String) : Prop :=
  s = "BSTD" ∨ ∃ n : Int, s = "<SPD-" ++ toString n ++ ">"

/-- A wire string of the facing step: the forward or backward token. -/
def is_facing_command (s : String) : Prop :=
  s = "<BUPD>" ∨ s = "<BDND>"

/-- A wire string of the steering step: a steering template. -/
def is_steering_command (s : String) : Prop :=
  ∃ n : Int, s = "<SUP-" ++ toString n ++ ">"

/-- A token delimited by angle brackets. -/
def is_bracket_delimited (s : String) : Prop :=
  s.data.head? = some '<' ∧ s.data.getLast? = some '>'

instance (s : String) : Decidable (is_bracket_delimited s) := by
  unfold is_bracket_delimited
  infer_instance

/-! ## Helper lemmas -/

theorem get_stop_all_command_eq : get_stop_all_command = some "BSTD" := by decide

theorem get_forward_command_eq : get_forward_command = some "<BUPD>" := by decide

theorem get_backward_command_eq : get_backward_command = some "<BDND>" := by decide

/-- The speed step on a zero target always emits exactly the stop token and
records speed 0. -/
theorem generate_speed_commands_zero (st : GeneratorState) :
    generate_speed_commands st 0 = (["BSTD"], { st with current_speed := 0 }) := by
  simp [generate_speed_commands, get_stop_all_command_eq]

/-- A string obtained by appending a nonempty suffix is nonempty. -/
theorem append_ne_empty_right (a s : String) (h : s.length ≠ 0) : a ++ s ≠ "" := by
  intro he
  have hlen := congrArg String.length he
  rw [String.length_append] at hlen
  have h0 : ("" : String).length = 0 := rfl
  omega

/-- get_speed_command succeeds exactly on the configured range. -/
theorem get_speed_command_in_range (t : Int) (hr : 500 ≤ t ∧ t ≤ 1000) :
    get_speed_command t = some ("<SPD-" ++ toString t ++ ">") := by
  simp [get_speed_command, speedParams, hr.1, hr.2]

/-- get_steering_command always yields the steering template around an
integer inside [500, 2500]. -/
theorem get_steering_command_shape (angle : Int) :
    ∃ b : Int, 500 ≤ b ∧ b ≤ 2500 ∧
      get_steering_command angle = "<SUP-" ++ toString b ++ ">" := by
  unfold get_steering_command
  by_cases h : angle < 500 ∨ angle > 2500
  · rw [if_pos h]
    exact ⟨max 500 (min 2500 angle), le_max_left _ _, by omega, rfl⟩
  · rw [if_neg h]
    push_neg at h
    exact ⟨angle, h.1, h.2, rfl⟩

/-- Master characterization of the speed step: stop token on target 0, one
speed command on an in-range changed target, nothing otherwise — updating
current_speed exactly when a command was produced. -/
theorem generate_speed_commands_eq (st : GeneratorState) (t : Int) :
    generate_speed_commands st t =
      if t = 0 then (["BSTD"], { st with current_speed := t })
      else if (500 ≤ t ∧ t ≤ 1000) ∧ t ≠ st.current_speed then
        (["<SPD-" ++ toString t ++ ">"], { st with current_speed := t })
      else ([], st) := by
  by_cases h0 : t = 0
  · simp [generate_speed_commands, h0, get_stop_all_command_eq]
  · by_cases hr : 500 ≤ t ∧ t ≤ 1000
    · by_cases hne : t = st.current_speed
      · rw [hne] at h0 hr ⊢
        simp [generate_speed_commands, h0, hr.1, hr.2]
      · have hcmd := get_speed_command_in_range t hr
        have hne2 : ("<SPD-" ++ toString t ++ ">") ≠ "" :=
          append_ne_empty_right ("<SPD-" ++ toString t) ">" (by decide)
        simp [generate_speed_commands, h0, hr.1, hr.2, hne, hcmd, hne2]
    · simp [generate_speed_commands, h0, hr]

/-- The speed step produces [], the stop token, or one templated speed
command for the target. -/
theorem generate_speed_commands_cases (st : GeneratorState) (t : Int) :
    (generate_speed_commands st t).1 = [] ∨
    (generate_speed_commands st t).1 = ["BSTD"] ∨
    (generate_speed_commands st t).1 = ["<SPD-" ++ toString t ++ ">"] := by
  rw [generate_speed_commands_eq]
  by_cases h0 : t = 0
  · rw [if_pos h0]
    simp
  · rw [if_neg h0]
    by_cases hc : (500 ≤ t ∧ t ≤ 1000) ∧ t ≠ st.current_speed
    · rw [if_pos hc]
      simp
    · rw [if_neg hc]
      simp

/-- The speed step never touches the facing and angle memories. -/
theorem generate_speed_commands_preserves (st : GeneratorState) (t : Int) :
    (generate_speed_commands st t).2.last_is_forward = st.last_is_forward ∧
    (generate_speed_commands st t).2.previous_angle = st.previous_angle := by
  rw [generate_speed_commands_eq]
  split
  · simp
  · split <;> simp

/-- After the speed step on an in-range nonzero target, current_speed equals
the target. -/
theorem generate_speed_commands_current (st : GeneratorState) (t : Int) (h0 : t ≠ 0)
    (hr : 500 ≤ t ∧ t ≤ 1000) :
    (generate_speed_commands st t).2.current_speed = t := by
  rw [generate_speed_commands_eq, if_neg h0]
  by_cases hne : t = st.current_speed
  · rw [if_neg (fun hcon => hcon.2 hne)]
    exact hne.symm
  · rw [if_pos ⟨hr, hne⟩]

/-- A nonzero out-of-range target makes the speed step a no-op. -/
theorem speed_step_rejects_out_of_range (st : GeneratorState) (t : Int)
    (h0 : t ≠ 0) (hr : ¬(500 ≤ t ∧ t ≤ 1000)) :
    generate_speed_commands st t = ([], st) := by
  rw [generate_speed_commands_eq, if_neg h0, if_neg (fun hcon => hr hcon.1)]

/-- A nonzero target equal to the current speed makes the speed step a no-op. -/
theorem generate_speed_commands_same (st : GeneratorState) (t : Int)
    (h0 : t ≠ 0) (hc : st.current_speed = t) :
    generate_speed_commands st t = ([], st) := by
  rw [generate_speed_commands_eq, if_neg h0, if_neg (fun hcon => hcon.2 hc.symm)]

/-- The movement step emits the facing token and records the facing. -/
theorem generate_movement_command_eq (st : GeneratorState) (is_forward : Bool) :
    generate_movement_command st is_forward =
      ((if is_forward then "<BUPD>" else "<BDND>"),
       { st with last_is_forward := some is_forward }) := by
  cases is_forward <;>
    simp [generate_movement_command, get_direction_command,
      get_forward_command_eq, get_backward_command_eq]

/-- The facing tokens are nonempty, also after trimming. -/
theorem movement_token_ok (f : Bool) :
    (if f then "<BUPD>" else "<BDND>") ≠ "" ∧
    pyStrip (if f then "<BUPD>" else "<BDND>") ≠ "" := by
  cases f <;> exact ⟨by decide, by decide⟩

/-- The steering step returns the empty string and an unchanged state when
the angle equals the stored previous angle. -/
theorem generate_direction_command_same (st : GeneratorState) (angle : Int)
    (h : st.previous_angle = some angle) :
    generate_direction_command st angle = ("", st) := by
  unfold generate_direction_command
  rw [if_pos ⟨by simp [h], h⟩]

/-- After the steering step the stored angle is the requested one, and the
other fields are untouched. -/
theorem generate_direction_command_post (st : GeneratorState) (angle : Int) :
    (generate_direction_command st angle).2.previous_angle = some angle ∧
    (generate_direction_command st angle).2.current_speed = st.current_speed ∧
    (generate_direction_command st angle).2.last_is_forward = st.last_is_forward := by
  unfold generate_direction_command
  split
  · rename_i h
    simp [h.2]
  · simp

/-- The steering step returns either the empty string or the steering command
for the requested angle. -/
theorem generate_direction_command_cases (st : GeneratorState) (angle : Int) :
    (generate_direction_command st angle).1 = "" ∨
    (generate_direction_command st angle).1 = get_steering_command angle := by
  unfold generate_direction_command
  split
  · simp
  · simp

/-! ## Claim theorems -/

/-- C1: for every control triple with speed = 0, generate returns exactly the
single STOP command (no facing or steering commands), on every call and from
every state, and the resulting state has current_speed = 0 with the facing
and angle memories untouched. -/
theorem generate_on_zero_speed_is_exactly_stop (st : GeneratorState) (d : CarControl)
    (h : d.speed = 0) :
    generate_commands_from_car_control st d = (["BSTD"], { st with current_speed := 0 }) := by
  simp [generate_commands_from_car_control, h, generate_speed_commands_zero]

/-- Witness for C1 at a concrete triple and the initial state. -/
theorem generate_on_zero_speed_is_exactly_stop_witness :
    generate_commands_from_car_control initGeneratorState
        { speed := 0, direction := 1500, is_forward := true } =
      (["BSTD"], { initGeneratorState with current_speed := 0 }) :=
  generate_on_zero_speed_is_exactly_stop initGeneratorState
    { speed := 0, direction := 1500, is_forward := true } rfl

/-- The facing token is a facing command. -/
theorem movement_token_facing (f : Bool) :
    is_facing_command (if f then "<BUPD>" else "<BDND>") := by
  cases f
  · exact Or.inr rfl
  · exact Or.inl rfl

/-- C3: every generate result decomposes into speed commands, then facing
commands, then steering commands — so whenever one call emits a command of
all three kinds, they appear in exactly the order speed, facing, steering. -/
theorem generate_commands_ordered (st : GeneratorState) (d : CarControl) :
    ∃ ls lf lt : List String,
      (generate_commands_from_car_control st d).1 = ls ++ lf ++ lt ∧
      (∀ c ∈ ls, is_speed_command c) ∧
      (∀ c ∈ lf, is_facing_command c) ∧
      (∀ c ∈ lt, is_steering_command c) := by
  have hsc : ∀ c ∈ (generate_speed_commands st d.speed).1, is_speed_command c := by
    rcases generate_speed_commands_cases st d.speed with hc | hc | hc <;> rw [hc]
    · intro c hc2
      exact absurd hc2 (List.not_mem_nil c)
    · intro c hc2
      rw [List.mem_singleton] at hc2
      exact Or.inl hc2
    · intro c hc2
      rw [List.mem_singleton] at hc2
      exact Or.inr ⟨d.speed, hc2⟩
  have hsteer : ∀ st2 sc st3, generate_direction_command st2 d.direction = (sc, st3) →
      ∀ c ∈ (if sc ≠ "" ∧ pyStrip sc ≠ "" then [sc] else []), is_steering_command c := by
    intro st2 sc st3 hdc c hc2
    have hcase := generate_direction_command_cases st2 d.direction
    rw [hdc] at hcase
    dsimp only at hcase
    split at hc2
    · rename_i hcond
      rw [List.mem_singleton] at hc2
      subst hc2
      rcases hcase with hem | hS
      · exact absurd hem hcond.1
      · obtain ⟨b, _, _, hb⟩ := get_steering_command_shape d.direction
        rw [hS, hb]
        exact ⟨b, rfl⟩
    · exact absurd hc2 (List.not_mem_nil c)
  unfold generate_commands_from_car_control
  dsimp only
  rcases hsp : generate_speed_commands st d.speed with ⟨ls, st1⟩
  rw [hsp] at hsc
  by_cases h0 : d.speed ≠ 0
  · rw [if_pos h0]
    rcases hlf : st1.last_is_forward with _ | lf
    all_goals dsimp only
    · rw [generate_movement_command_eq]
      dsimp only
      rw [if_pos (movement_token_ok d.is_forward)]
      rcases hdc : generate_direction_command
          { st1 with last_is_forward := some d.is_forward } d.direction with ⟨sc, st3⟩
      refine ⟨ls, [if d.is_forward then "<BUPD>" else "<BDND>"],
        (if sc ≠ "" ∧ pyStrip sc ≠ "" then [sc] else []), rfl, hsc, ?_, hsteer _ _ _ hdc⟩
      intro c hc2
      rw [List.mem_singleton] at hc2
      subst hc2
      exact movement_token_facing d.is_forward
    · by_cases hbe : lf = d.is_forward
      · rw [if_neg (by simp [hbe])]
        dsimp only
        rcases hdc : generate_direction_command st1 d.direction with ⟨sc, st3⟩
        refine ⟨ls, [], (if sc ≠ "" ∧ pyStrip sc ≠ "" then [sc] else []),
          rfl, hsc, ?_, hsteer _ _ _ hdc⟩
        intro c hc2
        exact absurd hc2 (List.not_mem_nil c)
      · rw [if_pos (by simp [hbe])]
        rw [generate_movement_command_eq]
        dsimp only
        rw [if_pos (movement_token_ok d.is_forward)]
        rcases hdc : generate_direction_command
            { st1 with last_is_forward := some d.is_forward } d.direction with ⟨sc, st3⟩
        refine ⟨ls, [if d.is_forward then "<BUPD>" else "<BDND>"],
          (if sc ≠ "" ∧ pyStrip sc ≠ "" then [sc] else []), rfl, hsc, ?_, hsteer _ _ _ hdc⟩
        intro c hc2
        rw [List.mem_singleton] at hc2
        subst hc2
        exact movement_token_facing d.is_forward
  · rw [if_neg h0]
    refine ⟨ls, [], [], by simp, hsc, ?_, ?_⟩
    · intro c hc2
      exact absurd hc2 (List.not_mem_nil c)
    · intro c hc2
      exact absurd hc2 (List.not_mem_nil c)

/-- C4: steering hysteresis — when the newly computed clamped, truncated
direction differs from the stored previous direction by strictly less than
1 percent of (MAX_DIRECTION - MIN_DIRECTION), calculate_direction returns
the previous direction with the state unchanged; otherwise it stores and
returns the new direction. -/
theorem calculate_direction_hysteresis (st : ConverterState) (gyro_z : ℚ) :
    calculate_direction st gyro_z =
      if |(direction_raw gyro_z : ℚ) - (st.previous_direction : ℚ)| <
          ((MAX_DIRECTION : ℚ) - (MIN_DIRECTION : ℚ)) * (1 / 100) then
        (st.previous_direction, st)
      else
        (direction_raw gyro_z,
         { st with previous_direction := direction_raw gyro_z,
                   car_status := { st.car_status with direction := direction_raw gyro_z } }) := by
  unfold calculate_direction
  norm_num [MAX_DIRECTION, MIN_DIRECTION]

/-- C2 support: after one generate call with nonzero speed, the facing and
angle memories hold the triple's values, and the current speed matches the
target unless the target was out of range. -/
theorem generate_first_call_post (st : GeneratorState) (d : CarControl) (h : d.speed ≠ 0) :
    (generate_commands_from_car_control st d).2.last_is_forward = some d.is_forward ∧
    (generate_commands_from_car_control st d).2.previous_angle = some d.direction ∧
    ((generate_commands_from_car_control st d).2.current_speed = d.speed ∨
      ¬(500 ≤ d.speed ∧ d.speed ≤ 1000)) := by
  have hcur : (generate_speed_commands st d.speed).2.current_speed = d.speed ∨
      ¬(500 ≤ d.speed ∧ d.speed ≤ 1000) := by
    by_cases hr : 500 ≤ d.speed ∧ d.speed ≤ 1000
    · exact Or.inl (generate_speed_commands_current st d.speed h hr)
    · exact Or.inr hr
  unfold generate_commands_from_car_control
  dsimp only
  rcases hsp : generate_speed_commands st d.speed with ⟨ls, st1⟩
  rw [hsp] at hcur
  dsimp only
  rw [if_pos h]
  rcases hlf : st1.last_is_forward with _ | lf
  all_goals dsimp only
  case none =>
    rw [generate_movement_command_eq]
    dsimp only
    rw [if_pos (movement_token_ok d.is_forward)]
    rcases hdc : generate_direction_command
        { st1 with last_is_forward := some d.is_forward } d.direction with ⟨sc, st3⟩
    have hpost := generate_direction_command_post
      { st1 with last_is_forward := some d.is_forward } d.direction
    rw [hdc] at hpost
    exact ⟨hpost.2.2, hpost.1, by rw [hpost.2.1]; exact hcur⟩
  case some =>
    by_cases hbe : lf = d.is_forward
    · rw [if_neg (by simp [hbe])]
      dsimp only
      rcases hdc : generate_direction_command st1 d.direction with ⟨sc, st3⟩
      have hpost := generate_direction_command_post st1 d.direction
      rw [hdc] at hpost
      exact ⟨by rw [hpost.2.2, hlf, hbe], hpost.1, by rw [hpost.2.1]; exact hcur⟩
    · rw [if_pos (by simp [hbe])]
      rw [generate_movement_command_eq]
      dsimp only
      rw [if_pos (movement_token_ok d.is_forward)]
      rcases hdc : generate_direction_command
          { st1 with last_is_forward := some d.is_forward } d.direction with ⟨sc, st3⟩
      have hpost := generate_direction_command_post
        { st1 with last_is_forward := some d.is_forward } d.direction
      rw [hdc] at hpost
      exact ⟨hpost.2.2, hpost.1, by rw [hpost.2.1]; exact hcur⟩

/-- C2 support: a generate call whose triple is already recorded in the state
(facing and angle stored, speed current or out of range) emits nothing. -/
theorem generate_fixed_point (st : GeneratorState) (d : CarControl) (h : d.speed ≠ 0)
    (hlf : st.last_is_forward = some d.is_forward)
    (hpa : st.previous_angle = some d.direction)
    (hcs : st.current_speed = d.speed ∨ ¬(500 ≤ d.speed ∧ d.speed ≤ 1000)) :
    (generate_commands_from_car_control st d).1 = [] := by
  have hsp : generate_speed_commands st d.speed = ([], st) := by
    rcases hcs with hc | hr
    · exact generate_speed_commands_same st d.speed h hc
    · exact speed_step_rejects_out_of_range st d.speed h hr
  unfold generate_commands_from_car_control
  dsimp only
  rw [hsp]
  dsimp only
  rw [if_pos h, hlf]
  dsimp only
  rw [if_neg (by simp)]
  dsimp only
  rw [generate_direction_command_same st d.direction hpa]
  dsimp only
  rw [if_neg (by simp)]
  simp

/-- C2: for every control triple with nonzero speed, a second generate call
with the identical triple and no state reset in between returns the empty
list. -/
theorem generate_second_call_empty (st : GeneratorState) (d : CarControl)
    (h : d.speed ≠ 0) :
    (generate_commands_from_car_control
        (generate_commands_from_car_control st d).2 d).1 = [] := by
  obtain ⟨h1, h2, h3⟩ := generate_first_call_post st d h
  exact generate_fixed_point _ d h h1 h2 h3

/-- Witness for C2 at a concrete triple and the initial state. -/
theorem generate_second_call_empty_witness :
    (generate_commands_from_car_control
        (generate_commands_from_car_control initGeneratorState
          { speed := 650, direction := 1600, is_forward := true }).2
        { speed := 650, direction := 1600, is_forward := true }).1 = [] :=
  generate_second_call_empty initGeneratorState
    { speed := 650, direction := 1600, is_forward := true } (by decide)

/-- C8: a nonzero target speed outside [500, 1000] makes the speed step emit
nothing and leave the whole generator state (current_speed included)
unchanged, without failing. -/
theorem generate_speed_commands_out_of_range (st : GeneratorState) (target_speed : Int)
    (h0 : target_speed ≠ 0) (hr : ¬(500 ≤ target_speed ∧ target_speed ≤ 1000)) :
    generate_speed_commands st target_speed = ([], st) := by
  simp [generate_speed_commands, h0, hr]

/-- Witness for C8 at target speed 1200. -/
theorem generate_speed_commands_out_of_range_witness :
    generate_speed_commands initGeneratorState 1200 = ([], initGeneratorState) :=
  generate_speed_commands_out_of_range initGeneratorState 1200 (by decide) (by decide)

/-- C5: whenever the clamped meditation exceeds MEDITATION_THRESHOLD, the
computed speed is BASE_SPEED, whatever the attention. -/
theorem calculate_speed_meditation_override (st : ConverterState) (attention meditation : ℚ)
    (h : MEDITATION_THRESHOLD < max 0 (min meditation MAX_MEDITATION_VALUE)) :
    (calculate_speed st attention meditation).1 = BASE_SPEED := by
  simp [calculate_speed, h]

/-- Witness for C5 at meditation 100 and attention 100. -/
theorem calculate_speed_meditation_override_witness :
    (calculate_speed initConverterState 100 100).1 = BASE_SPEED :=
  calculate_speed_meditation_override initConverterState 100 100 (by norm_num
    [MEDITATION_THRESHOLD, MAX_MEDITATION_VALUE])

/-- C10: for all rational attention and meditation inputs the computed speed
lies in [BASE_SPEED, MAX_SPEED] = [500, 800]; in particular it is never 0,
so the generator's STOP branch is unreachable from converter output. -/
theorem calculate_speed_in_range (st : ConverterState) (attention meditation : ℚ) :
    BASE_SPEED ≤ (calculate_speed st attention meditation).1 ∧
    (calculate_speed st attention meditation).1 ≤ MAX_SPEED ∧
    (calculate_speed st attention meditation).1 ≠ 0 := by
  unfold calculate_speed
  dsimp only
  split
  · norm_num [BASE_SPEED, MAX_SPEED]
  · have h1 : (BASE_SPEED : Int) ≤
        max BASE_SPEED (min (pyInt ((BASE_SPEED : ℚ) +
          (max 0 (min attention MAX_ATTENTION_VALUE) / MAX_ATTENTION_VALUE) *
            ((MAX_SPEED : ℚ) - (BASE_SPEED : ℚ)))) MAX_SPEED) := le_max_left _ _
    have h2 : max BASE_SPEED (min (pyInt ((BASE_SPEED : ℚ) +
          (max 0 (min attention MAX_ATTENTION_VALUE) / MAX_ATTENTION_VALUE) *
            ((MAX_SPEED : ℚ) - (BASE_SPEED : ℚ)))) MAX_SPEED) ≤ MAX_SPEED :=
      max_le (by norm_num [BASE_SPEED, MAX_SPEED]) (min_le_right _ _)
    refine ⟨h1, h2, ?_⟩
    have : (0 : Int) < BASE_SPEED := by norm_num [BASE_SPEED]
    omega

/-- Unfolding of the facing computation on a present value. -/
theorem calculate_forward_direction_some (st : ConverterState) (y : ℚ) :
    calculate_forward_direction st (some y) =
      (decide (y < 10),
       { st with car_status := { st.car_status with is_forward := decide (y < 10) } }) := rfl

/-- pyInt (truncation toward zero) is monotone. -/
theorem pyInt_mono {q r : ℚ} (h : q ≤ r) : pyInt q ≤ pyInt r := by
  unfold pyInt
  by_cases hq : q < 0 <;> by_cases hr : r < 0
  · rw [if_pos hq, if_pos hr]
    have hf : ⌊-r⌋ ≤ ⌊-q⌋ := Int.floor_mono (by linarith)
    omega
  · rw [if_pos hq, if_neg hr]
    have h1 : (0 : Int) ≤ ⌊r⌋ := Int.floor_nonneg.mpr (by linarith)
    have h2 : (0 : Int) ≤ ⌊-q⌋ := Int.floor_nonneg.mpr (by linarith)
    omega
  · exact absurd (lt_of_le_of_lt h hr) hq
  · rw [if_neg hq, if_neg hr]
    exact Int.floor_mono h

/-- C9: with the meditation fixed at or below MEDITATION_THRESHOLD, the
computed speed is monotonically non-decreasing as a function of attention. -/
theorem calculate_speed_monotone_in_attention (st1 st2 : ConverterState)
    (meditation a1 a2 : ℚ) (hm : meditation ≤ MEDITATION_THRESHOLD) (ha : a1 ≤ a2) :
    (calculate_speed st1 a1 meditation).1 ≤ (calculate_speed st2 a2 meditation).1 := by
  have hno : ¬(MEDITATION_THRESHOLD < max 0 (min meditation MAX_MEDITATION_VALUE)) := by
    apply not_lt.mpr
    apply max_le
    · norm_num [MEDITATION_THRESHOLD]
    · exact le_trans (min_le_left _ _) hm
  unfold calculate_speed
  dsimp only
  rw [if_neg hno, if_neg hno]
  apply max_le_max le_rfl
  apply min_le_min _ le_rfl
  apply pyInt_mono
  have hattn : max 0 (min a1 MAX_ATTENTION_VALUE) ≤ max 0 (min a2 MAX_ATTENTION_VALUE) :=
    max_le_max le_rfl (min_le_min ha le_rfl)
  have hdiv : max 0 (min a1 MAX_ATTENTION_VALUE) / MAX_ATTENTION_VALUE ≤
      max 0 (min a2 MAX_ATTENTION_VALUE) / MAX_ATTENTION_VALUE :=
    (div_le_div_iff_of_pos_right (by norm_num [MAX_ATTENTION_VALUE])).mpr hattn
  have hrange : (0 : ℚ) ≤ (MAX_SPEED : ℚ) - (BASE_SPEED : ℚ) := by
    norm_num [MAX_SPEED, BASE_SPEED]
  exact add_le_add_left (mul_le_mul_of_nonneg_right hdiv hrange) _

/-- Witness for C9 at attention 10 versus 90, meditation 50. -/
theorem calculate_speed_monotone_in_attention_witness :
    (calculate_speed initConverterState 10 50).1 ≤
      (calculate_speed initConverterState 90 50).1 :=
  calculate_speed_monotone_in_attention initConverterState initConverterState 50 10 90
    (by norm_num [MEDITATION_THRESHOLD]) (by norm_num)

/-- Missing gyro.y key: the conversion succeeds and the facing comes out
forward, because the missing key defaults to 0 and the facing test is
0 < 10 (general helper, any state and values; the one excluded input is a z
key explicitly holding None, where the source swallows a TypeError and
returns None). -/
theorem convert_missing_y_aux (st : ConverterState) (a m : ℚ) (g : GyroData)
    (hy : g.y = none) (hz : g.z ≠ some none) :
    ∃ c : CarControl,
      (convert_essential_data st
          { attention := some a, meditation := some m, gyro := some g }).1 = some c ∧
      c.is_forward = true := by
  unfold convert_essential_data
  dsimp only
  rw [hy]
  rcases hgz : g.z with _ | oz
  · dsimp only [Option.getD]
    rcases hc : calculate_speed st a m with ⟨speed, st1⟩
    dsimp only
    rcases hd : calculate_direction st1 0 with ⟨dir, st2⟩
    dsimp only
    rw [calculate_forward_direction_some]
    rw [show decide ((0 : ℚ) < 10) = true from by decide]
    exact ⟨⟨speed, dir, true⟩, rfl, rfl⟩
  · rcases oz with _ | z
    · exact absurd hgz hz
    · dsimp only [Option.getD]
      rcases hc : calculate_speed st a m with ⟨speed, st1⟩
      dsimp only
      rcases hd : calculate_direction st1 z with ⟨dir, st2⟩
      dsimp only
      rw [calculate_forward_direction_some]
      rw [show decide ((0 : ℚ) < 10) = true from by decide]
      exact ⟨⟨speed, dir, true⟩, rfl, rfl⟩

/-- C6 counterexample: at the concrete sample with attention 50, meditation
50 and gyro missing its y key, the pipeline yields a control triple whose
is_forward is NOT false — it is treated as forward, contradicting the
claimed backward default. -/
theorem convert_missing_gyro_y_counterexample :
    ∃ c : CarControl,
      (convert_essential_data initConverterState
          { attention := some 50, meditation := some 50,
            gyro := some { y := none, z := some (some 0) } }).1 = some c ∧
      c.is_forward ≠ false := by
  obtain ⟨c, hc, hf⟩ := convert_missing_y_aux initConverterState 50 50
    { y := none, z := some (some 0) } rfl (by decide)
  exact ⟨c, hc, by rw [hf]; decide⟩

/-- C6 amended: a sample whose gyro dictionary is missing the y key is
treated as FORWARD (is_forward = true), because the missing key defaults to
0 and 0 < 10, and the conversion never fails — provided the z key does not
hold None (in that one case the source swallows a TypeError and returns
None, still without raising). -/
theorem convert_missing_gyro_y_forward (st : ConverterState) (a m : ℚ) (g : GyroData)
    (hy : g.y = none) (hz : g.z ≠ some none) :
    ∃ c : CarControl,
      (convert_essential_data st
          { attention := some a, meditation := some m, gyro := some g }).1 = some c ∧
      c.is_forward = true :=
  convert_missing_y_aux st a m g hy hz

/-- Witness for the amended C6 at a concrete sample. -/
theorem convert_missing_gyro_y_forward_witness :
    ∃ c : CarControl,
      (convert_essential_data initConverterState
          { attention := some 80, meditation := some 20,
            gyro := some { y := none, z := some (some 45) } }).1 = some c ∧
      c.is_forward = true :=
  convert_missing_gyro_y_forward initConverterState 80 20
    { y := none, z := some (some 45) } rfl (by decide)

/-- C7 counterexample: the stop-all token the generator emits is "BSTD",
which is not a bracket-delimited token. -/
theorem stop_all_token_not_bracketed :
    get_stop_all_command = some "BSTD" ∧ ¬ is_bracket_delimited "BSTD" := by
  constructor
  · decide
  · decide

/-- C7 amended: every fixed token of COMMAND_MAP except stop_all, speed_up,
speed_down and the bare speed prefix is bracket-delimited; stop_all is the
unbracketed token "BSTD"; the speed command is built exactly for integers in
[500, 1000] and carries that integer; the steering command always carries an
integer in [500, 2500]. -/
theorem command_vocabulary_shape :
    COMMAND_MAP.Forall (fun p =>
      p.1 = "stop_all" ∨ p.1 = "speed_up" ∨ p.1 = "speed_down" ∨ p.1 = "speed" ∨
      is_bracket_delimited p.2) ∧
    get_stop_all_command = some "BSTD" ∧ ¬ is_bracket_delimited "BSTD" ∧
    (∀ s : Int, (500 ≤ s ∧ s ≤ 1000 ∧
        get_speed_command s = some ("<SPD-" ++ toString s ++ ">")) ∨
      get_speed_command s = none) ∧
    (∀ a : Int, ∃ b : Int, 500 ≤ b ∧ b ≤ 2500 ∧
      get_steering_command a = "<SUP-" ++ toString b ++ ">") := by
  refine ⟨by decide, by decide, by decide, ?_, get_steering_command_shape⟩
  intro s
  by_cases hr : 500 ≤ s ∧ s ≤ 1000
  · exact Or.inl ⟨hr.1, hr.2, get_speed_command_in_range s hr⟩
  · right
    simp [get_speed_command, speedParams, hr]

end BrainCar
